import Mathlib

/-!
Shallow embedding of the pinocchio-stake program core (merge classification,
merge engine, credit-weighted averaging, redelegation, set-lockup and the
mutable state accessor), translated from `src/program/src`.

Conventions:
* `u64` fields stored in the source as little-endian `[u8; 8]` arrays are
  represented by the `Nat` obtained from `u64::from_le_bytes`, the decoding
  the program itself uses everywhere it reads such a field.  An assignment of
  `x.to_be_bytes()` to such a field (which occurs twice in
  `state/utils.rs`) therefore appears here as `bswap64 x`: the value the
  program will read back from the big-endian bytes with its little-endian
  convention.
* Checked `u64`/`u128` arithmetic is explicit: `checked_add` mirrors
  `helpers/mod.rs` (overflow yields `InsufficientFunds`), and the `u128`
  checked operations used by `stake_weighted_credits_observed` are the
  `Option`-valued guards of `helpers/merge.rs`.
* `Pubkey` is represented by `Nat`; only equality of keys matters to the
  embedded code.
* The modules `state/delegation.rs`, `state/lockup.rs`, `state/authorized.rs`,
  `state/stake_flags.rs` and `state/stake_state_v2.rs` are referenced by
  `state/mod.rs` but absent from the source tree.  Where their behaviour
  decides a claim they are modelled from the spec (marked in doc comments);
  where only their output feeds an embedded function (the
  activation-accounting tuple, the effective-stake amount, the authorize
  routine) they are universally quantified function parameters.
-/

abbrev Pubkey := Nat

/-- `2 ^ 64`, the modulus of `u64` arithmetic. -/
def U64_MOD : Nat := 2 ^ 64

/-- `2 ^ 128`, the modulus of `u128` arithmetic. -/
def U128_MOD : Nat := 2 ^ 128

/-- `u64::MAX`, the `Epoch::MAX` sentinel meaning "not deactivating". -/
def EPOCH_MAX : Nat := 2 ^ 64 - 1

/-- Byte `i` (little-endian order) of the 8-byte encoding of `v`. -/
def byteAt (v i : Nat) : Nat := v / 2 ^ (8 * i) % 256

/-- The value read back with `u64::from_le_bytes` from `v.to_be_bytes()`:
byte order reversed. -/
def bswap64 (v : Nat) : Nat :=
  byteAt v 0 * 2 ^ 56 + byteAt v 1 * 2 ^ 48 + byteAt v 2 * 2 ^ 40 +
    byteAt v 3 * 2 ^ 32 + byteAt v 4 * 2 ^ 24 + byteAt v 5 * 2 ^ 16 +
    byteAt v 6 * 2 ^ 8 + byteAt v 7

/-- The subset of `ProgramError` variants reached by the embedded code
(`pinocchio::program_error::ProgramError`; `Custom` carries a
`StakeError` discriminant). -/
inductive ProgramError where
  | InvalidAccountData
  | InvalidArgument
  | InvalidInstructionData
  | InsufficientFunds
  | ArithmeticOverflow
  | MissingRequiredSignature
  | InvalidAccountOwner
  | NotEnoughAccountKeys
  | Custom (code : Nat)
deriving DecidableEq

/-- `error.rs`: the stake program's error enumeration, in declaration order
(the order fixes the `Custom` discriminants). -/
inductive StakeError where
  | NoCreditsToRedeem
  | LockupInForce
  | AlreadyDeactivated
  | TooSoonToRedelegate
  | InsufficientStake
  | MergeTransientStake
  | MergeMismatch
  | CustodianMissing
  | CustodianSignatureMissing
  | InsufficientReferenceVotes
  | VoteAddressMismatch
  | MinimumDelinquentEpochsForDeactivationNotMet
  | InsufficientDelegation
  | RedelegateTransientOrInactiveStake
  | RedelegateToSameVoteAccount
  | RedelegatedStakeMustFullyActivateBeforeDeactivation
  | EpochRewardsActive
deriving DecidableEq

/-- The `e as u32` discriminant used by `impl From<StakeError> for ProgramError`. -/
def StakeError.code : StakeError → Nat
  | .NoCreditsToRedeem => 0
  | .LockupInForce => 1
  | .AlreadyDeactivated => 2
  | .TooSoonToRedelegate => 3
  | .InsufficientStake => 4
  | .MergeTransientStake => 5
  | .MergeMismatch => 6
  | .CustodianMissing => 7
  | .CustodianSignatureMissing => 8
  | .InsufficientReferenceVotes => 9
  | .VoteAddressMismatch => 10
  | .MinimumDelinquentEpochsForDeactivationNotMet => 11
  | .InsufficientDelegation => 12
  | .RedelegateTransientOrInactiveStake => 13
  | .RedelegateToSameVoteAccount => 14
  | .RedelegatedStakeMustFullyActivateBeforeDeactivation => 15
  | .EpochRewardsActive => 16

/-- `ProgramError::Custom(e as u32)` (`error.rs`). -/
def StakeError.toProgramError (e : StakeError) : ProgramError :=
  .Custom e.code

/-- `error.rs` `InstructionError`, restricted to the variants produced by the
embedded code (`Meta::set_lockup`). -/
inductive InstructionError where
  | MissingRequiredSignature
  | Custom (code : Nat)
deriving DecidableEq

/-- `error.rs` `to_program_error` / `TryFrom<InstructionError>` on the
variants that occur here. -/
def instructionErrorToProgramError : InstructionError → ProgramError
  | .MissingRequiredSignature => .MissingRequiredSignature
  | .Custom c => .Custom c

/-- `helpers/mod.rs` `checked_add`: u64 checked addition, overflow mapped to
`InsufficientFunds`. -/
def checked_add (a b : Nat) : Except ProgramError Nat :=
  if a + b < U64_MOD then .ok (a + b) else .error .InsufficientFunds

/-- `u128::checked_mul` on values represented as `Nat`. -/
def checkedMulU128 (a b : Nat) : Option Nat :=
  if a * b < U128_MOD then some (a * b) else none

/-- `u128::checked_add` on values represented as `Nat`. -/
def checkedAddU128 (a b : Nat) : Option Nat :=
  if a + b < U128_MOD then some (a + b) else none

/-- `u128::checked_sub` on values represented as `Nat`. -/
def checkedSubU128 (a b : Nat) : Option Nat :=
  if b ≤ a then some (a - b) else none

/-- `u128::checked_div` on values represented as `Nat`. -/
def checkedDivU128 (a b : Nat) : Option Nat :=
  if b = 0 then none else some (a / b)

/-- `u64::try_from` on a `u128` value. -/
def u64TryFromU128 (a : Nat) : Option Nat :=
  if a < U64_MOD then some a else none

/-- Modelled from the spec: `Lockup` (`state/lockup.rs` is absent from the
source tree): `{ unlock_unix_time: i64, unlock_epoch: u64, custodian }`. -/
structure Lockup where
  unix_timestamp : Int
  epoch : Nat
  custodian : Pubkey
deriving DecidableEq

/-- Modelled from the spec: `AuthoritySet` / `Authorized`
(`state/authorized.rs` is absent): `{ staker, withdrawer }`. -/
structure Authorized where
  staker : Pubkey
  withdrawer : Pubkey
deriving DecidableEq

/-- `state/meta.rs` `Meta`: rent-exempt reserve (u64 LE bytes), authority
set, lockup. -/
structure Meta where
  rent_exempt_reserve : Nat
  authorized : Authorized
  lockup : Lockup
deriving DecidableEq

/-- The relevant `Clock` fields (`state/stake_clock.rs`; `slot`,
`epoch_start_timestamp` and `leader_schedule_epoch` are never read by the
embedded code). -/
structure Clock where
  epoch : Nat
  unix_timestamp : Int
deriving DecidableEq

/-- Modelled from the spec: `Lockup::is_in_force` (`state/lockup.rs` is
absent) — "in force when either `unix_time < unlock_unix_time` or
`epoch < unlock_epoch`".  Every embedded call site passes a `None`
custodian override, so that parameter is omitted. -/
def Lockup.is_in_force (l : Lockup) (clock : Clock) : Bool :=
  decide (clock.unix_timestamp < l.unix_timestamp) || decide (clock.epoch < l.epoch)

/-- Modelled from the spec: stake flags byte (`state/stake_flags.rs` is
absent), with bitwise `union` and `empty`. -/
abbrev StakeFlags := Nat

/-- `StakeFlags::empty()`. -/
def StakeFlags.empty : StakeFlags := 0

/-- `StakeFlags::union`. -/
def StakeFlags.union (a b : StakeFlags) : StakeFlags := Nat.lor a b

/-- `Delegation` (`state/delegation.rs` is absent; the field set follows the
spec data model and the in-source readers).  All four numeric fields are
u64 little-endian byte arrays in the source, represented by their decoded
values. -/
structure Delegation where
  voter_pubkey : Pubkey
  stake : Nat
  activation_epoch : Nat
  deactivation_epoch : Nat
deriving DecidableEq

/-- `Stake`: a delegation plus the credits observed (u64 LE bytes). -/
structure Stake where
  delegation : Delegation
  credits_observed : Nat
deriving DecidableEq

/-- `StakeStateV2` (`state/stake_state_v2.rs` is absent; the four-way tagged
union follows the spec data model and the in-source `match`es). -/
inductive StakeStateV2 where
  | Uninitialized
  | Initialized (meta : Meta)
  | Stake (meta : Meta) (stake : Stake) (stake_flags : StakeFlags)
  | RewardsPool
deriving DecidableEq

/-- The `(effective, activating, deactivating)` tuple returned by
`Delegation::stake_activating_and_deactivating`. -/
structure StakeActivationStatus where
  effective : Nat
  activating : Nat
  deactivating : Nat
deriving DecidableEq

/-- `helpers/merge.rs` `stake_weighted_credits_observed` (the
`state/merge.rs` copy differs only in byte-array plumbing): credit-weighted
average with ceiling rounding, every step checked. -/
def stake_weighted_credits_observed (stake : Stake)
    (absorbed_lamports absorbed_credits_observed : Nat) : Option Nat :=
  if stake.credits_observed = absorbed_credits_observed then
    some stake.credits_observed
  else
    match (checked_add stake.delegation.stake absorbed_lamports).toOption with
    | none => none
    | some total_stake =>
      match checkedMulU128 stake.credits_observed stake.delegation.stake with
      | none => none
      | some stake_weighted_credits =>
        match checkedMulU128 absorbed_credits_observed absorbed_lamports with
        | none => none
        | some absorbed_weighted_credits =>
          match checkedAddU128 stake_weighted_credits absorbed_weighted_credits with
          | none => none
          | some t1 =>
            match checkedAddU128 t1 total_stake with
            | none => none
            | some t2 =>
              match checkedSubU128 t2 1 with
              | none => none
              | some total_weighted_credits =>
                match checkedDivU128 total_weighted_credits total_stake with
                | none => none
                | some q => u64TryFromU128 q

/-- `helpers/merge.rs` `merge_delegation_stake_and_credits_observed`,
returning the updated `Stake` instead of mutating in place. -/
def merge_delegation_stake_and_credits_observed (stake : Stake)
    (absorbed_lamports absorbed_credits_observed : Nat) :
    Except ProgramError Stake :=
  match stake_weighted_credits_observed stake absorbed_lamports absorbed_credits_observed with
  | none => .error .ArithmeticOverflow
  | some credits_observed =>
    match checked_add stake.delegation.stake absorbed_lamports with
    | .error e => .error e
    | .ok new_stake =>
      .ok { stake with
              credits_observed := credits_observed,
              delegation := { stake.delegation with stake := new_stake } }

/-- `helpers/merge.rs` / `state/merge.rs` `MergeKind`. -/
inductive MergeKind where
  | Inactive (meta : Meta) (lamports : Nat) (flags : StakeFlags)
  | ActivationEpoch (meta : Meta) (stake : Stake) (flags : StakeFlags)
  | FullyActive (meta : Meta) (stake : Stake)
deriving DecidableEq

/-- `MergeKind::meta`. -/
def MergeKind.meta : MergeKind → Meta
  | .Inactive m _ _ => m
  | .ActivationEpoch m _ _ => m
  | .FullyActive m _ => m

/-- `MergeKind::active_stake`. -/
def MergeKind.active_stake : MergeKind → Option Stake
  | .Inactive _ _ _ => none
  | .ActivationEpoch _ s _ => some s
  | .FullyActive _ s => some s

/-- `MergeKind::get_if_mergeable`.  The call
`stake.delegation.stake_activating_and_deactivating(clock.epoch, history,
rate_epoch)` lives in the absent `state/delegation.rs`; it appears here as
the function parameter `status` (history and rate-cutover folded in), applied
to the delegation and `clock.epoch` exactly as at the call site. -/
def MergeKind.get_if_mergeable (status : Delegation → Nat → StakeActivationStatus)
    (stake_state : StakeStateV2) (stake_lamports : Nat) (clock : Clock) :
    Except ProgramError MergeKind :=
  match stake_state with
  | .Stake meta stake stake_flags =>
    match status stake.delegation clock.epoch with
    | ⟨0, 0, 0⟩ => .ok (.Inactive meta stake_lamports stake_flags)
    | ⟨0, _, _⟩ => .ok (.ActivationEpoch meta stake stake_flags)
    | ⟨_, 0, 0⟩ => .ok (.FullyActive meta stake)
    | ⟨_, _, _⟩ => .error (StakeError.toProgramError .MergeTransientStake)
  | .Initialized meta => .ok (.Inactive meta stake_lamports StakeFlags.empty)
  | _ => .error .InvalidAccountData

/-- `MergeKind::metas_can_merge`: authorities must match and lockups must
match unless both are expired; `rent_exempt_reserve` is not consulted. -/
def MergeKind.metas_can_merge (stake source : Meta) (clock : Clock) :
    Except ProgramError Unit :=
  let can_merge_lockups :=
    stake.lockup = source.lockup ∨
      (stake.lockup.is_in_force clock = false ∧ source.lockup.is_in_force clock = false)
  if stake.authorized = source.authorized ∧ can_merge_lockups then
    .ok ()
  else
    .error (StakeError.toProgramError .MergeMismatch)

/-- `MergeKind::active_delegations_can_merge`: same voter and neither side
deactivating (both deactivation epochs at the `Epoch::MAX` sentinel). -/
def MergeKind.active_delegations_can_merge (stake source : Delegation) :
    Except ProgramError Unit :=
  if stake.voter_pubkey ≠ source.voter_pubkey then
    .error (StakeError.toProgramError .MergeMismatch)
  else if stake.deactivation_epoch = EPOCH_MAX ∧ source.deactivation_epoch = EPOCH_MAX then
    .ok ()
  else
    .error (StakeError.toProgramError .MergeMismatch)

/-- `MergeKind::merge` (`helpers/merge.rs`): compatibility checks, then the
five-way case table over `(destination, source)`. -/
def MergeKind.merge (self source : MergeKind) (clock : Clock) :
    Except ProgramError (Option StakeStateV2) :=
  match MergeKind.metas_can_merge self.meta source.meta clock with
  | .error e => .error e
  | .ok _ =>
    match (match self.active_stake, source.active_stake with
           | some a, some b => MergeKind.active_delegations_can_merge a.delegation b.delegation
           | _, _ => Except.ok ()) with
    | .error e => .error e
    | .ok _ =>
      match self, source with
      | .Inactive _ _ _, .Inactive _ _ _ => .ok none
      | .Inactive _ _ _, .ActivationEpoch _ _ _ => .ok none
      | .ActivationEpoch meta stake stake_flags, .Inactive _ source_lamports source_stake_flags =>
        match checked_add stake.delegation.stake source_lamports with
        | .error e => .error e
        | .ok ns =>
          .ok (some (.Stake meta
            { stake with delegation := { stake.delegation with stake := ns } }
            (StakeFlags.union stake_flags source_stake_flags)))
      | .ActivationEpoch meta stake stake_flags,
          .ActivationEpoch source_meta source_stake source_stake_flags =>
        match checked_add source_meta.rent_exempt_reserve source_stake.delegation.stake with
        | .error e => .error e
        | .ok source_lamports =>
          match merge_delegation_stake_and_credits_observed stake source_lamports
              source_stake.credits_observed with
          | .error e => .error e
          | .ok stake2 =>
            .ok (some (.Stake meta stake2 (StakeFlags.union stake_flags source_stake_flags)))
      | .FullyActive meta stake, .FullyActive _ source_stake =>
        match merge_delegation_stake_and_credits_observed stake
            source_stake.delegation.stake source_stake.credits_observed with
        | .error e => .error e
        | .ok stake2 => .ok (some (.Stake meta stake2 StakeFlags.empty))
      | _, _ => .error (StakeError.toProgramError .MergeMismatch)

/-- `consts.rs` `FEATURE_STAKE_RAISE_MINIMUM_DELEGATION_TO_1_SOL`. -/
def FEATURE_STAKE_RAISE_MINIMUM_DELEGATION_TO_1_SOL : Bool := false

/-- `consts.rs` `LAMPORTS_PER_SOL`. -/
def LAMPORTS_PER_SOL : Nat := 1000000000

/-- `state/utils.rs` `get_minimum_delegation`. -/
def get_minimum_delegation : Nat :=
  if FEATURE_STAKE_RAISE_MINIMUM_DELEGATION_TO_1_SOL then 1 * LAMPORTS_PER_SOL else 1

/-- `state/utils.rs` `validate_delegated_amount`: the stake amount is the
account balance minus the rent-exempt reserve (saturating), checked against
the minimum delegation.  The returned `ValidatedDelegatedInfo.stake_amount`
field is written with `to_be_bytes` in the source, so its little-endian
reading — the program's convention for the field it ends up in — is
`bswap64` of the amount. -/
def validate_delegated_amount (lamports : Nat) (meta : Meta) :
    Except ProgramError Nat :=
  let stake_amount := lamports - meta.rent_exempt_reserve
  if stake_amount < get_minimum_delegation then
    .error (StakeError.toProgramError .InsufficientDelegation)
  else
    .ok (bswap64 stake_amount)

/-- `state/utils.rs` `redelegate_stake`, returning the updated `Stake`
instead of mutating in place.  `Stake::stake(epoch, history, rate_epoch)` —
the effective stake at `epoch` — lives in the absent `state/stake.rs` and
appears as the function parameter `effective_stake` (history and
rate-cutover folded in); `vote_state.credits()` is passed as the
`vote_credits` value.  The source stores `vote_state.credits().to_be_bytes()`
into the little-endian `credits_observed` field, hence `bswap64`. -/
def redelegate_stake (effective_stake : Stake → Nat → Nat) (stake : Stake)
    (stake_lamports : Nat) (voter_pubkey : Pubkey) (vote_credits : Nat)
    (epoch : Nat) : Except ProgramError Stake :=
  if effective_stake stake epoch ≠ 0 then
    if stake.delegation.voter_pubkey = voter_pubkey ∧
        epoch = stake.delegation.deactivation_epoch then
      .ok { stake with
              delegation := { stake.delegation with deactivation_epoch := EPOCH_MAX } }
    else
      .error (StakeError.toProgramError .TooSoonToRedelegate)
  else
    .ok { delegation :=
            { voter_pubkey := voter_pubkey,
              stake := stake_lamports,
              activation_epoch := epoch,
              deactivation_epoch := EPOCH_MAX },
          credits_observed := bswap64 vote_credits }

/-- `state/meta.rs` `SetLockupSignerArgs`. -/
structure SetLockupSignerArgs where
  has_custodian_signer : Bool
  has_withdrawer_signer : Bool

/-- `instruction/set_lockup.rs` `LockupArgs` (each field optional). -/
structure LockupArgs where
  unix_timestamp : Option Int
  epoch : Option Nat
  custodian : Option Pubkey

/-- The field-by-field update at the end of `Meta::set_lockup`: each `Some`
argument field overwrites the corresponding lockup field; `None` fields are
left alone. -/
def Meta.applyLockupArgs (m : Meta) (lockup : LockupArgs) : Meta :=
  let lk := m.lockup
  let lk := match lockup.unix_timestamp with
            | some t => { lk with unix_timestamp := t }
            | none => lk
  let lk := match lockup.epoch with
            | some e => { lk with epoch := e }
            | none => lk
  let lk := match lockup.custodian with
            | some c => { lk with custodian := c }
            | none => lk
  { m with lockup := lk }

/-- `state/meta.rs` `Meta::set_lockup`: custodian must sign while the lockup
is in force, otherwise the withdrawer must sign; then each `Some` argument
field overwrites the corresponding lockup field. -/
def Meta.set_lockup (m : Meta) (lockup : LockupArgs)
    (signer_args : SetLockupSignerArgs) (clock : Clock) :
    Except InstructionError Meta :=
  if m.lockup.is_in_force clock then
    if signer_args.has_custodian_signer = false then
      .error .MissingRequiredSignature
    else
      .ok (m.applyLockupArgs lockup)
  else if signer_args.has_withdrawer_signer = false then
    .error .MissingRequiredSignature
  else
    .ok (m.applyLockupArgs lockup)

/-- The account fields read by the embedded handlers.  `state` stands for the
record behind the opaque read/write interface; `data_len` is the byte length
of the backing storage (200 for a well-formed stake account). -/
structure AccountInfo where
  key : Pubkey
  owner : Pubkey
  lamports : Nat
  is_signer : Bool
  data_len : Nat
  state : StakeStateV2

/-- The program id `crate::ID` (`Stake11111111111111111111111111111111111111`);
only equality against it matters, so it is an arbitrary fixed key. -/
def stakeProgramID : Pubkey := 111111

/-- Modelled from the spec: `StakeStateV2::try_from_account_info_mut`
(`state/stake_state_v2.rs` is absent) — the opaque "read current record"
interface, which fails when the backing storage is not the fixed 200-byte
record size (as `get_stake_state` in `state/mod.rs` does). -/
def tryFromAccountInfoMut (acc : AccountInfo) : Except ProgramError StakeStateV2 :=
  if acc.data_len = 200 then .ok acc.state else .error .InvalidAccountData

/-- `state/mod.rs` `try_get_stake_state_mut`: rejects accounts owned by the
stake program itself with `InvalidAccountOwner`, then defers to
`try_from_account_info_mut`. -/
def try_get_stake_state_mut (acc : AccountInfo) : Except ProgramError StakeStateV2 :=
  if acc.owner = stakeProgramID then
    .error .InvalidAccountOwner
  else
    tryFromAccountInfoMut acc

/-- `state/utils.rs` `do_authorize`, returning the new record.
`Authorized::authorize` lives in the absent `state/authorized.rs`; it appears
as the function parameter `authorizeFn` (signers, new authority, authority
type, custodian and clock folded in), applied to the record's authority set
and lockup exactly as at the call site. -/
def do_authorize (authorizeFn : Authorized → Lockup → Except ProgramError Authorized)
    (acc : AccountInfo) : Except ProgramError StakeStateV2 :=
  match try_get_stake_state_mut acc with
  | .error e => .error e
  | .ok (.Initialized meta) =>
    match authorizeFn meta.authorized meta.lockup with
    | .error e => .error e
    | .ok a => .ok (.Initialized { meta with authorized := a })
  | .ok (.Stake meta stake stake_flags) =>
    match authorizeFn meta.authorized meta.lockup with
    | .error e => .error e
    | .ok a => .ok (.Stake { meta with authorized := a } stake stake_flags)
  | .ok _ => .error .InvalidAccountData

/-- `instruction/set_lockup.rs` `do_set_lookup`, returning the new record. -/
def do_set_lookup (acc : AccountInfo) (lockup : LockupArgs)
    (has_custodian_signer has_withdrawer_signer : Bool) (clock : Clock) :
    Except ProgramError StakeStateV2 :=
  match try_get_stake_state_mut acc with
  | .error e => .error e
  | .ok (.Initialized meta) =>
    match meta.set_lockup lockup ⟨has_custodian_signer, has_withdrawer_signer⟩ clock with
    | .error e => .error (instructionErrorToProgramError e)
    | .ok m => .ok (.Initialized m)
  | .ok (.Stake meta stake stake_flags) =>
    match meta.set_lockup lockup ⟨has_custodian_signer, has_withdrawer_signer⟩ clock with
    | .error e => .error (instructionErrorToProgramError e)
    | .ok m => .ok (.Stake m stake stake_flags)
  | .ok _ => .error .InvalidAccountData

/-- `state/mod.rs` `relocate_lamports` on the two balances
`(source_lamports, destination_lamports)`: checked subtraction from the
source commits before the checked addition to the destination is attempted,
so an addition overflow leaves the subtraction in place.  Returns the result
together with the two balances as they stand when the call returns. -/
def relocate_lamports (source_lamports destination_lamports lamports : Nat) :
    Except ProgramError Unit × Nat × Nat :=
  if lamports ≤ source_lamports then
    if destination_lamports + lamports < U64_MOD then
      (.ok (), source_lamports - lamports, destination_lamports + lamports)
    else
      (.error .ArithmeticOverflow, source_lamports - lamports, destination_lamports)
  else
    (.error .InsufficientFunds, source_lamports, destination_lamports)

/-- The mutable state touched by `process_merge`: both records and both
balances. -/
structure MergeWorld where
  destState : StakeStateV2
  sourceState : StakeStateV2
  destLamports : Nat
  sourceLamports : Nat
deriving DecidableEq

/-- `instruction/merge.rs` `process_merge` from the same-key check onward
(signers already collected, clock already read), returning the result
together with the account state as it stands when the call returns.
`Authorized::check` (absent `state/authorized.rs`) is modelled from the
spec: the staker authority must be among the supplied signers.  The
per-record activation tuple is the `status` parameter as in
`get_if_mergeable`. -/
def process_merge (status : Delegation → Nat → StakeActivationStatus)
    (destination_key source_key : Pubkey) (signers : List Pubkey)
    (clock : Clock) (w : MergeWorld) :
    Except ProgramError Unit × MergeWorld :=
  if source_key = destination_key then
    (.error .InvalidArgument, w)
  else
    match MergeKind.get_if_mergeable status w.destState w.destLamports clock with
    | .error e => (.error e, w)
    | .ok destination_merge_kind =>
      if destination_merge_kind.meta.authorized.staker ∈ signers then
        match MergeKind.get_if_mergeable status w.sourceState w.sourceLamports clock with
        | .error e => (.error e, w)
        | .ok source_merge_kind =>
          match MergeKind.merge destination_merge_kind source_merge_kind clock with
          | .error e => (.error e, w)
          | .ok merged =>
            let w1 := match merged with
                      | some merged_state => { w with destState := merged_state }
                      | none => w
            let w2 := { w1 with sourceState := .Uninitialized }
            match relocate_lamports w2.sourceLamports w2.destLamports w2.sourceLamports with
            | (.ok _, src, dst) =>
              (.ok (), { w2 with sourceLamports := src, destLamports := dst })
            | (.error e, src, dst) =>
              (.error e, { w2 with sourceLamports := src, destLamports := dst })
      else
        (.error .MissingRequiredSignature, w)

deriving instance DecidableEq for Except

/-! ## Helper lemmas for the checked arithmetic -/

theorem checked_add_ok {a b : Nat} (h : a + b < U64_MOD) :
    checked_add a b = .ok (a + b) := by
  simp [checked_add, h]

theorem checked_add_err {a b : Nat} (h : U64_MOD ≤ a + b) :
    checked_add a b = .error .InsufficientFunds := by
  simp [checked_add, Nat.not_lt.mpr h]

theorem checkedMulU128_some {a b : Nat} (h : a * b < U128_MOD) :
    checkedMulU128 a b = some (a * b) := by
  simp [checkedMulU128, h]

theorem checkedAddU128_some {a b : Nat} (h : a + b < U128_MOD) :
    checkedAddU128 a b = some (a + b) := by
  simp [checkedAddU128, h]

theorem checkedSubU128_some {a b : Nat} (h : b ≤ a) :
    checkedSubU128 a b = some (a - b) := by
  simp [checkedSubU128, h]

theorem checkedDivU128_some {a b : Nat} (h : b ≠ 0) :
    checkedDivU128 a b = some (a / b) := by
  simp [checkedDivU128, h]

theorem u64TryFromU128_some {a : Nat} (h : a < U64_MOD) :
    u64TryFromU128 a = some a := by
  simp [u64TryFromU128, h]

/-- With both credit inputs below `2 ^ 64`, the weighted numerator plus the
total stake is at most `2 ^ 64` times the total stake. -/
theorem weighted_credits_le {c s ca la : Nat}
    (hc : c < U64_MOD) (hca : ca < U64_MOD) :
    c * s + ca * la + (s + la) ≤ U64_MOD * (s + la) := by
  have hMpos : 1 ≤ U64_MOD := by norm_num [U64_MOD]
  have h1 : c * s + ca * la ≤ (U64_MOD - 1) * (s + la) := by
    calc c * s + ca * la
        ≤ (U64_MOD - 1) * s + (U64_MOD - 1) * la :=
          Nat.add_le_add (Nat.mul_le_mul_right _ (Nat.le_pred_of_lt hc))
            (Nat.mul_le_mul_right _ (Nat.le_pred_of_lt hca))
      _ = (U64_MOD - 1) * (s + la) := (Nat.mul_add _ _ _).symm
  calc c * s + ca * la + (s + la) ≤ (U64_MOD - 1) * (s + la) + (s + la) :=
        Nat.add_le_add_right h1 _
    _ = (U64_MOD - 1 + 1) * (s + la) := by rw [Nat.add_mul, Nat.one_mul]
    _ = U64_MOD * (s + la) := by rw [Nat.sub_add_cancel hMpos]

/-- Bounds feeding the credit-weighted average: with all inputs below
`2 ^ 64` and the total stake fitting in a `u64`, the weighted numerator plus
the total fits in a `u128`. -/
theorem weighted_credits_bound {c s ca la : Nat}
    (hc : c < U64_MOD) (hca : ca < U64_MOD) (htot : s + la < U64_MOD) :
    c * s + ca * la + (s + la) < U128_MOD := by
  calc c * s + ca * la + (s + la) ≤ U64_MOD * (s + la) := weighted_credits_le hc hca
    _ < U64_MOD * U64_MOD := mul_lt_mul_of_pos_left htot (by norm_num [U64_MOD])
    _ = U128_MOD := by norm_num [U64_MOD, U128_MOD]

/-- C1: the credit-weighted merge: equal credits pass through unchanged;
otherwise the result is the 128-bit ceiling average
`(weighted + total - 1) / total` of the two credit values weighted by the
record's stake and the absorbed lamports. -/
theorem claim_C1_stake_weighted_credits (stake : Stake) (la ca : Nat)
    (hc : stake.credits_observed < U64_MOD)
    (hca : ca < U64_MOD) :
    (stake.credits_observed = ca →
      stake_weighted_credits_observed stake la ca = some stake.credits_observed) ∧
    (stake.credits_observed ≠ ca →
      stake.delegation.stake + la < U64_MOD →
      0 < stake.delegation.stake + la →
      stake_weighted_credits_observed stake la ca =
        some ((stake.credits_observed * stake.delegation.stake + ca * la +
                (stake.delegation.stake + la) - 1) /
              (stake.delegation.stake + la))) := by
  constructor
  · intro heq
    simp [stake_weighted_credits_observed, heq]
  · intro hne htot hpos
    have hbig : stake.credits_observed * stake.delegation.stake + ca * la +
        (stake.delegation.stake + la) < U128_MOD :=
      weighted_credits_bound hc hca htot
    have ha1 : stake.credits_observed * stake.delegation.stake + ca * la < U128_MOD :=
      lt_of_le_of_lt (Nat.le_add_right _ _) hbig
    have hm1 : stake.credits_observed * stake.delegation.stake < U128_MOD :=
      lt_of_le_of_lt (Nat.le_add_right _ _) ha1
    have hm2 : ca * la < U128_MOD :=
      lt_of_le_of_lt (Nat.le_add_left _ _) ha1
    have hsub : 1 ≤ stake.credits_observed * stake.delegation.stake + ca * la +
        (stake.delegation.stake + la) :=
      le_trans hpos (Nat.le_add_left _ _)
    have hq : (stake.credits_observed * stake.delegation.stake + ca * la +
        (stake.delegation.stake + la) - 1) / (stake.delegation.stake + la) < U64_MOD := by
      rw [Nat.div_lt_iff_lt_mul hpos]
      calc stake.credits_observed * stake.delegation.stake + ca * la +
            (stake.delegation.stake + la) - 1
          < stake.credits_observed * stake.delegation.stake + ca * la +
            (stake.delegation.stake + la) :=
            Nat.sub_lt (lt_of_lt_of_le Nat.one_pos hsub) Nat.one_pos
        _ ≤ U64_MOD * (stake.delegation.stake + la) := weighted_credits_le hc hca
    rw [stake_weighted_credits_observed, if_neg hne]
    simp only [checked_add_ok htot, Except.toOption, checkedMulU128_some hm1,
      checkedMulU128_some hm2, checkedAddU128_some ha1, checkedAddU128_some hbig,
      checkedSubU128_some hsub, checkedDivU128_some (Nat.pos_iff_ne_zero.mp hpos),
      u64TryFromU128_some hq]

/-- Witness for C1: the spec's worked scenario — credits 10 on stake 500
absorbing 500 lamports at credits 20 averages (with ceiling) to 15. -/
theorem claim_C1_witness :
    stake_weighted_credits_observed
        { delegation := { voter_pubkey := 7, stake := 500, activation_epoch := 0,
                          deactivation_epoch := EPOCH_MAX },
          credits_observed := 10 } 500 20 =
      some ((10 * 500 + 20 * 500 + (500 + 500) - 1) / (500 + 500)) :=
  (claim_C1_stake_weighted_credits
      { delegation := { voter_pubkey := 7, stake := 500, activation_epoch := 0,
                        deactivation_epoch := EPOCH_MAX },
        credits_observed := 10 } 500 20
      (by norm_num [U64_MOD]) (by norm_num [U64_MOD])).2
    (by norm_num) (by norm_num [U64_MOD]) (by norm_num)

/-- Sample metadata used by concrete witnesses: staker 2, withdrawer 3, an
expired (all-zero) lockup, reserve 100. -/
def sampleMeta : Meta :=
  { rent_exempt_reserve := 100,
    authorized := { staker := 2, withdrawer := 3 },
    lockup := { unix_timestamp := 0, epoch := 0, custodian := 0 } }

/-- Sample clock used by concrete witnesses. -/
def sampleClock : Clock := { epoch := 0, unix_timestamp := 0 }

/-- C8 (amended): when the u64 addition of the destination stake and the
absorbed lamports overflows, the merge step fails — with
`ArithmeticOverflow` when the two credit values differ (the overflow is
caught inside the weighted-credits computation), but with
`InsufficientFunds` when they are equal, because `helpers/mod.rs`
`checked_add` maps overflow to `InsufficientFunds`. -/
theorem claim_C8_overflow_error (stake : Stake) (la ca : Nat)
    (hov : U64_MOD ≤ stake.delegation.stake + la) :
    merge_delegation_stake_and_credits_observed stake la ca =
      .error (if stake.credits_observed = ca then ProgramError.InsufficientFunds
              else ProgramError.ArithmeticOverflow) := by
  by_cases heq : stake.credits_observed = ca
  · simp [merge_delegation_stake_and_credits_observed, stake_weighted_credits_observed,
      heq, checked_add_err hov]
  · simp [merge_delegation_stake_and_credits_observed, stake_weighted_credits_observed,
      heq, checked_add_err hov, Except.toOption]

/-- Witness for C8 (amended): differing credits and an overflowing total
produce `ArithmeticOverflow`. -/
theorem claim_C8_overflow_error_witness :
    merge_delegation_stake_and_credits_observed
        { delegation := { voter_pubkey := 3, stake := 2 ^ 64 - 1, activation_epoch := 0,
                          deactivation_epoch := EPOCH_MAX },
          credits_observed := 5 } 1 9 =
      .error (if (5 : Nat) = 9 then ProgramError.InsufficientFunds
              else ProgramError.ArithmeticOverflow) :=
  claim_C8_overflow_error
    { delegation := { voter_pubkey := 3, stake := 2 ^ 64 - 1, activation_epoch := 0,
                      deactivation_epoch := EPOCH_MAX },
      credits_observed := 5 } 1 9 (by norm_num [U64_MOD])

/-- Counterexample to C8 as stated: with equal credits (5 = 5) and an
overflowing addition, the merge step fails with `InsufficientFunds`, not
`ArithmeticOverflow`. -/
theorem claim_C8_counterexample :
    U64_MOD ≤ (2 ^ 64 - 1) + 1 ∧
    merge_delegation_stake_and_credits_observed
        { delegation := { voter_pubkey := 3, stake := 2 ^ 64 - 1, activation_epoch := 0,
                          deactivation_epoch := EPOCH_MAX },
          credits_observed := 5 } 1 5 =
      .error .InsufficientFunds ∧
    merge_delegation_stake_and_credits_observed
        { delegation := { voter_pubkey := 3, stake := 2 ^ 64 - 1, activation_epoch := 0,
                          deactivation_epoch := EPOCH_MAX },
          credits_observed := 5 } 1 5 ≠
      .error .ArithmeticOverflow := by
  refine ⟨by norm_num [U64_MOD], ?_, ?_⟩ <;> decide

/-- C4: the classification in `get_if_mergeable` is exactly the claimed
four-way split on the `(effective, activating, deactivating)` tuple — in
particular no class is ever produced when `effective` is nonzero together
with a nonzero `activating` or `deactivating` — and `Initialized` maps to
`Inactive` while `Uninitialized` and `RewardsPool` fail with
`InvalidAccountData`.  Quantifying over `status` covers every possible
activation-accounting outcome. -/
theorem claim_C4_classification (status : Delegation → Nat → StakeActivationStatus)
    (meta : Meta) (stake : Stake) (flags : StakeFlags) (lamports : Nat) (clock : Clock) :
    ((status stake.delegation clock.epoch).effective = 0 ∧
       (status stake.delegation clock.epoch).activating = 0 ∧
       (status stake.delegation clock.epoch).deactivating = 0 →
      MergeKind.get_if_mergeable status (.Stake meta stake flags) lamports clock =
        .ok (.Inactive meta lamports flags)) ∧
    ((status stake.delegation clock.epoch).effective = 0 ∧
       ((status stake.delegation clock.epoch).activating ≠ 0 ∨
        (status stake.delegation clock.epoch).deactivating ≠ 0) →
      MergeKind.get_if_mergeable status (.Stake meta stake flags) lamports clock =
        .ok (.ActivationEpoch meta stake flags)) ∧
    ((status stake.delegation clock.epoch).effective ≠ 0 ∧
       (status stake.delegation clock.epoch).activating = 0 ∧
       (status stake.delegation clock.epoch).deactivating = 0 →
      MergeKind.get_if_mergeable status (.Stake meta stake flags) lamports clock =
        .ok (.FullyActive meta stake)) ∧
    ((status stake.delegation clock.epoch).effective ≠ 0 ∧
       ((status stake.delegation clock.epoch).activating ≠ 0 ∨
        (status stake.delegation clock.epoch).deactivating ≠ 0) →
      MergeKind.get_if_mergeable status (.Stake meta stake flags) lamports clock =
        .error (StakeError.toProgramError .MergeTransientStake)) ∧
    MergeKind.get_if_mergeable status (.Initialized meta) lamports clock =
      .ok (.Inactive meta lamports StakeFlags.empty) ∧
    MergeKind.get_if_mergeable status .Uninitialized lamports clock =
      .error .InvalidAccountData ∧
    MergeKind.get_if_mergeable status .RewardsPool lamports clock =
      .error .InvalidAccountData := by
  rcases hst : status stake.delegation clock.epoch with ⟨e, a, d⟩
  simp only [MergeKind.get_if_mergeable, hst]
  refine ⟨?_, ?_, ?_, ?_, by trivial, by trivial, by trivial⟩
  · rintro ⟨rfl, rfl, rfl⟩
    rfl
  · rintro ⟨rfl, had⟩
    cases a with
    | zero =>
      cases d with
      | zero => rcases had with h | h <;> exact absurd rfl h
      | succ d => rfl
    | succ a => rfl
  · rintro ⟨he, rfl, rfl⟩
    cases e with
    | zero => exact absurd rfl he
    | succ e => rfl
  · rintro ⟨he, had⟩
    cases e with
    | zero => exact absurd rfl he
    | succ e =>
      cases a with
      | zero =>
        cases d with
        | zero => rcases had with h | h <;> exact absurd rfl h
        | succ d => rfl
      | succ a => rfl

/-- Witness for C4: a tuple with nonzero effective and nonzero activating
is rejected as transient, and an `Uninitialized` record is rejected as
invalid. -/
theorem claim_C4_witness :
    MergeKind.get_if_mergeable (fun _ _ => ⟨1, 1, 0⟩)
        (.Stake sampleMeta
          { delegation := { voter_pubkey := 7, stake := 500, activation_epoch := 0,
                            deactivation_epoch := EPOCH_MAX },
            credits_observed := 10 } StakeFlags.empty) 700 sampleClock =
      .error (StakeError.toProgramError .MergeTransientStake) ∧
    MergeKind.get_if_mergeable (fun _ _ => ⟨1, 1, 0⟩) .Uninitialized 700 sampleClock =
      .error .InvalidAccountData :=
  ⟨(claim_C4_classification (fun _ _ => ⟨1, 1, 0⟩) sampleMeta
      { delegation := { voter_pubkey := 7, stake := 500, activation_epoch := 0,
                        deactivation_epoch := EPOCH_MAX },
        credits_observed := 10 } StakeFlags.empty 700 sampleClock).2.2.2.1
      (by decide),
   (claim_C4_classification (fun _ _ => ⟨1, 1, 0⟩) sampleMeta
      { delegation := { voter_pubkey := 7, stake := 500, activation_epoch := 0,
                        deactivation_epoch := EPOCH_MAX },
        credits_observed := 10 } StakeFlags.empty 700 sampleClock).2.2.2.2.2.1⟩

/-- C7: with nonzero effective stake, redelegation succeeds exactly when the
new voter equals the current voter and the current epoch equals the
scheduled deactivation epoch, in which case only `deactivation_epoch` is
reset to the sentinel; every other nonzero-effective case fails with
`TooSoonToRedelegate`. -/
theorem claim_C7_redelegate_active (effective_stake : Stake → Nat → Nat)
    (stake : Stake) (stake_lamports : Nat) (voter_pubkey : Pubkey)
    (vote_credits epoch : Nat)
    (hactive : effective_stake stake epoch ≠ 0) :
    (stake.delegation.voter_pubkey = voter_pubkey ∧
        epoch = stake.delegation.deactivation_epoch →
      redelegate_stake effective_stake stake stake_lamports voter_pubkey vote_credits epoch =
        .ok { stake with
                delegation := { stake.delegation with deactivation_epoch := EPOCH_MAX } }) ∧
    (¬(stake.delegation.voter_pubkey = voter_pubkey ∧
        epoch = stake.delegation.deactivation_epoch) →
      redelegate_stake effective_stake stake stake_lamports voter_pubkey vote_credits epoch =
        .error (StakeError.toProgramError .TooSoonToRedelegate)) := by
  constructor
  · intro h
    rw [redelegate_stake, if_pos hactive, if_pos h]
  · intro h
    rw [redelegate_stake, if_pos hactive, if_neg h]

/-- Witness for C7: rescinding a deactivation scheduled for the current
epoch on an active delegation, and the failure on a different voter. -/
theorem claim_C7_witness :
    redelegate_stake (fun _ _ => 5)
        { delegation := { voter_pubkey := 7, stake := 500, activation_epoch := 1,
                          deactivation_epoch := 4 },
          credits_observed := 10 } 900 7 1 4 =
      .ok { delegation := { voter_pubkey := 7, stake := 500, activation_epoch := 1,
                            deactivation_epoch := EPOCH_MAX },
            credits_observed := 10 } :=
  (claim_C7_redelegate_active (fun _ _ => 5)
      { delegation := { voter_pubkey := 7, stake := 500, activation_epoch := 1,
                        deactivation_epoch := 4 },
        credits_observed := 10 } 900 7 1 4 (by decide)).1 (by decide)

/-- C3 (code bug): redelegating a zero-effective-stake record stores the
vote credits with `to_be_bytes` into the little-endian `credits_observed`
field, so credits 1 are recorded as `2 ^ 56`; the other overwritten fields
match the claim.  `validate_delegated_amount` likewise returns its
`stake_amount` as `to_be_bytes`, so the amount fed to `redelegate_stake`
is byte-swapped as well. -/
theorem claim_C3_code_bug_bswapped_credits :
    redelegate_stake (fun _ _ => 0)
        { delegation := { voter_pubkey := 3, stake := 250, activation_epoch := 1,
                          deactivation_epoch := 2 },
          credits_observed := 9 } 900 7 1 5 =
      .ok { delegation := { voter_pubkey := 7, stake := 900, activation_epoch := 5,
                            deactivation_epoch := EPOCH_MAX },
            credits_observed := 72057594037927936 } ∧
    (72057594037927936 : Nat) ≠ 1 ∧
    validate_delegated_amount 1000 sampleMeta = .ok (bswap64 900) ∧
    bswap64 900 ≠ 900 := by
  refine ⟨?_, ?_, ?_, ?_⟩ <;> decide

/-- C6: metadata compatibility holds exactly when the authority sets are
equal and the lockups are equal or both expired; the rent-exempt reserves
play no role; the only failure is `MergeMismatch`. -/
theorem claim_C6_metas_can_merge (a b : Meta) (clock : Clock) :
    (MergeKind.metas_can_merge a b clock = .ok () ↔
      a.authorized = b.authorized ∧
        (a.lockup = b.lockup ∨
          (a.lockup.is_in_force clock = false ∧ b.lockup.is_in_force clock = false))) ∧
    (MergeKind.metas_can_merge a b clock = .ok () ∨
      MergeKind.metas_can_merge a b clock =
        .error (StakeError.toProgramError .MergeMismatch)) ∧
    (∀ r1 r2 : Nat,
      MergeKind.metas_can_merge { a with rent_exempt_reserve := r1 }
          { b with rent_exempt_reserve := r2 } clock =
        MergeKind.metas_can_merge a b clock) := by
  refine ⟨?_, ?_, fun r1 r2 => rfl⟩
  · rw [MergeKind.metas_can_merge]
    split
    · simp_all
    · simp_all
  · rw [MergeKind.metas_can_merge]
    split
    · exact Or.inl rfl
    · exact Or.inr rfl

/-- Inversion for a successful `merge_delegation_stake_and_credits_observed`:
the new stake is the exact u64 sum and the new credits come from
`stake_weighted_credits_observed`; voter and epochs are untouched. -/
theorem merge_delegation_ok_inv {stake : Stake} {la ca : Nat} {stake2 : Stake}
    (h : merge_delegation_stake_and_credits_observed stake la ca = .ok stake2) :
    stake2.delegation.stake = stake.delegation.stake + la ∧
    stake.delegation.stake + la < U64_MOD ∧
    stake_weighted_credits_observed stake la ca = some stake2.credits_observed ∧
    stake2.delegation.voter_pubkey = stake.delegation.voter_pubkey ∧
    stake2.delegation.activation_epoch = stake.delegation.activation_epoch ∧
    stake2.delegation.deactivation_epoch = stake.delegation.deactivation_epoch := by
  rw [merge_delegation_stake_and_credits_observed] at h
  cases hsw : stake_weighted_credits_observed stake la ca with
  | none => rw [hsw] at h; simp at h
  | some credits =>
    rw [hsw] at h
    cases hadd : checked_add stake.delegation.stake la with
    | error e => rw [hadd] at h; simp at h
    | ok ns =>
      rw [hadd] at h
      simp only [Except.ok.injEq] at h
      subst h
      rw [checked_add] at hadd
      by_cases hlt : stake.delegation.stake + la < U64_MOD
      · rw [if_pos hlt] at hadd
        simp only [Except.ok.injEq] at hadd
        subst hadd
        refine ⟨rfl, hlt, ?_, rfl, rfl, rfl⟩
        simp
      · rw [if_neg hlt] at hadd
        simp at hadd

/-- `MergeKind::merge` on two `FullyActive` inputs, written as the direct
chain of its three effectful steps (definitional unfolding). -/
theorem merge_fully_active_eq (meta source_meta : Meta)
    (stake source_stake : Stake) (clock : Clock) :
    MergeKind.merge (.FullyActive meta stake) (.FullyActive source_meta source_stake) clock =
      (match MergeKind.metas_can_merge meta source_meta clock with
       | .error e => .error e
       | .ok _ =>
         match MergeKind.active_delegations_can_merge stake.delegation
             source_stake.delegation with
         | .error e => .error e
         | .ok _ =>
           match merge_delegation_stake_and_credits_observed stake
               source_stake.delegation.stake source_stake.credits_observed with
           | .error e => .error e
           | .ok stake2 => .ok (some (.Stake meta stake2 StakeFlags.empty))) := by
  rw [MergeKind.merge]
  rfl

/-- C5: a successful merge of two `FullyActive` records absorbs exactly the
source's delegation stake (not its reserve) via the credit-weighted merge
with the source's `credits_observed`, and clears the flags. -/
theorem claim_C5_fully_active_merge (meta source_meta : Meta)
    (stake source_stake : Stake) (clock : Clock) (r : Option StakeStateV2)
    (h : MergeKind.merge (.FullyActive meta stake) (.FullyActive source_meta source_stake)
        clock = .ok r) :
    ∃ stake2,
      merge_delegation_stake_and_credits_observed stake source_stake.delegation.stake
          source_stake.credits_observed = .ok stake2 ∧
      r = some (.Stake meta stake2 StakeFlags.empty) ∧
      stake2.delegation.stake = stake.delegation.stake + source_stake.delegation.stake ∧
      stake_weighted_credits_observed stake source_stake.delegation.stake
          source_stake.credits_observed = some stake2.credits_observed := by
  rw [merge_fully_active_eq] at h
  cases hm : MergeKind.metas_can_merge meta source_meta clock with
  | error e => rw [hm] at h; simp at h
  | ok u =>
    rw [hm] at h
    cases hd : MergeKind.active_delegations_can_merge stake.delegation
        source_stake.delegation with
    | error e => rw [hd] at h; simp at h
    | ok v =>
      rw [hd] at h
      cases hmd : merge_delegation_stake_and_credits_observed stake
          source_stake.delegation.stake source_stake.credits_observed with
      | error e => rw [hmd] at h; simp at h
      | ok stake2 =>
        rw [hmd] at h
        simp only [Except.ok.injEq] at h
        obtain ⟨hsum, _, hsw, _, _, _⟩ := merge_delegation_ok_inv hmd
        exact ⟨stake2, rfl, h.symm, hsum, hsw⟩

/-- Witness for C5: two FullyActive records (500 lamports at credits 10 and
500 at credits 20, same voter) merge to stake 1000, credits 15, empty
flags. -/
theorem claim_C5_witness :
    ∃ stake2,
      merge_delegation_stake_and_credits_observed
          { delegation := { voter_pubkey := 7, stake := 500, activation_epoch := 0,
                            deactivation_epoch := EPOCH_MAX },
            credits_observed := 10 } 500 20 = .ok stake2 ∧
      (some (StakeStateV2.Stake sampleMeta
          { delegation := { voter_pubkey := 7, stake := 1000, activation_epoch := 0,
                            deactivation_epoch := EPOCH_MAX },
            credits_observed := 15 } StakeFlags.empty) : Option StakeStateV2) =
        some (.Stake sampleMeta stake2 StakeFlags.empty) ∧
      stake2.delegation.stake = 500 + 500 ∧
      stake_weighted_credits_observed
          { delegation := { voter_pubkey := 7, stake := 500, activation_epoch := 0,
                            deactivation_epoch := EPOCH_MAX },
            credits_observed := 10 } 500 20 = some stake2.credits_observed :=
  claim_C5_fully_active_merge sampleMeta sampleMeta
    { delegation := { voter_pubkey := 7, stake := 500, activation_epoch := 0,
                      deactivation_epoch := EPOCH_MAX },
      credits_observed := 10 }
    { delegation := { voter_pubkey := 7, stake := 500, activation_epoch := 0,
                      deactivation_epoch := EPOCH_MAX },
      credits_observed := 20 } sampleClock
    (some (.Stake sampleMeta
      { delegation := { voter_pubkey := 7, stake := 1000, activation_epoch := 0,
                        deactivation_epoch := EPOCH_MAX },
        credits_observed := 15 } StakeFlags.empty))
    (by decide)

/-- C10: a successful `Meta::set_lockup` updates exactly the lockup fields
supplied as `Some`, keeps `None` fields at their current values, and leaves
the authority set and the rent-exempt reserve untouched. -/
theorem claim_C10_set_lockup_frame (m : Meta) (lockup : LockupArgs)
    (signer_args : SetLockupSignerArgs) (clock : Clock) (m2 : Meta)
    (h : m.set_lockup lockup signer_args clock = .ok m2) :
    m2.authorized = m.authorized ∧
    m2.rent_exempt_reserve = m.rent_exempt_reserve ∧
    m2.lockup.unix_timestamp = lockup.unix_timestamp.getD m.lockup.unix_timestamp ∧
    m2.lockup.epoch = lockup.epoch.getD m.lockup.epoch ∧
    m2.lockup.custodian = lockup.custodian.getD m.lockup.custodian := by
  have hm2 : m2 = m.applyLockupArgs lockup := by
    rw [Meta.set_lockup] at h
    split at h
    · split at h
      · simp at h
      · simp only [Except.ok.injEq] at h
        exact h.symm
    · split at h
      · simp at h
      · simp only [Except.ok.injEq] at h
        exact h.symm
  subst hm2
  rcases lockup with ⟨ut, ep, cu⟩
  cases ut <;> cases ep <;> cases cu <;>
    simp [Meta.applyLockupArgs, Option.getD]

/-- Witness for C10: with the lockup expired and the withdrawer signing,
setting only the epoch keeps the other fields. -/
theorem claim_C10_witness :
    (sampleMeta.applyLockupArgs
        { unix_timestamp := none, epoch := some 9, custodian := none }).authorized =
      sampleMeta.authorized ∧
    (sampleMeta.applyLockupArgs
        { unix_timestamp := none, epoch := some 9, custodian := none }).rent_exempt_reserve =
      sampleMeta.rent_exempt_reserve ∧
    (sampleMeta.applyLockupArgs
        { unix_timestamp := none, epoch := some 9, custodian := none }).lockup.unix_timestamp =
      Option.getD none sampleMeta.lockup.unix_timestamp ∧
    (sampleMeta.applyLockupArgs
        { unix_timestamp := none, epoch := some 9, custodian := none }).lockup.epoch =
      Option.getD (some 9) sampleMeta.lockup.epoch ∧
    (sampleMeta.applyLockupArgs
        { unix_timestamp := none, epoch := some 9, custodian := none }).lockup.custodian =
      Option.getD none sampleMeta.lockup.custodian :=
  claim_C10_set_lockup_frame sampleMeta
    { unix_timestamp := none, epoch := some 9, custodian := none }
    { has_custodian_signer := false, has_withdrawer_signer := true } sampleClock
    (sampleMeta.applyLockupArgs
      { unix_timestamp := none, epoch := some 9, custodian := none })
    (by decide)

/-- C9: an account owned by the stake program itself is rejected by
`try_get_stake_state_mut` with `InvalidAccountOwner`, so `do_authorize` and
`do_set_lookup` fail the same way on such accounts; accounts not owned by
the program pass the guard straight to the underlying record read. -/
theorem claim_C9_owner_guard (acc : AccountInfo)
    (authorizeFn : Authorized → Lockup → Except ProgramError Authorized)
    (lockup : LockupArgs) (has_custodian_signer has_withdrawer_signer : Bool)
    (clock : Clock) (h : acc.owner = stakeProgramID) :
    try_get_stake_state_mut acc = .error .InvalidAccountOwner ∧
    do_authorize authorizeFn acc = .error .InvalidAccountOwner ∧
    do_set_lookup acc lockup has_custodian_signer has_withdrawer_signer clock =
      .error .InvalidAccountOwner ∧
    (∀ acc2 : AccountInfo, acc2.owner ≠ stakeProgramID →
      try_get_stake_state_mut acc2 = tryFromAccountInfoMut acc2) := by
  have hg : try_get_stake_state_mut acc = .error .InvalidAccountOwner := by
    rw [try_get_stake_state_mut, if_pos h]
  refine ⟨hg, ?_, ?_, ?_⟩
  · rw [do_authorize, hg]
  · rw [do_set_lookup, hg]
  · intro acc2 h2
    rw [try_get_stake_state_mut, if_neg h2]

/-- Witness for C9: a program-owned account is rejected by the accessor and
by set-lockup. -/
theorem claim_C9_witness :
    try_get_stake_state_mut
        { key := 5, owner := stakeProgramID, lamports := 0, is_signer := false,
          data_len := 200, state := .Initialized sampleMeta } =
      .error .InvalidAccountOwner ∧
    do_set_lookup
        { key := 5, owner := stakeProgramID, lamports := 0, is_signer := false,
          data_len := 200, state := .Initialized sampleMeta }
        { unix_timestamp := none, epoch := none, custodian := none } false true
        sampleClock =
      .error .InvalidAccountOwner :=
  have h := claim_C9_owner_guard
    { key := 5, owner := stakeProgramID, lamports := 0, is_signer := false,
      data_len := 200, state := .Initialized sampleMeta }
    (fun a _ => .ok a)
    { unix_timestamp := none, epoch := none, custodian := none } false true
    sampleClock rfl
  ⟨h.1, h.2.2.1⟩

/-- C2 (amended): every failing check in `process_merge` up to and including
the merged-state computation returns with the account state untouched; the
only exception is the final lamport relocation, which runs after the state
writes — if the destination balance plus the source balance overflows a
u64, the call fails with `ArithmeticOverflow` after the records were
already rewritten. -/
theorem claim_C2_no_partial_write (status : Delegation → Nat → StakeActivationStatus)
    (destination_key source_key : Pubkey) (signers : List Pubkey) (clock : Clock)
    (w : MergeWorld) (e : ProgramError) (w2 : MergeWorld)
    (h : process_merge status destination_key source_key signers clock w = (.error e, w2)) :
    w2 = w ∨ (U64_MOD ≤ w.destLamports + w.sourceLamports ∧ e = .ArithmeticOverflow) := by
  rw [process_merge] at h
  split at h
  · exact Or.inl (congrArg Prod.snd h).symm
  · split at h
    · exact Or.inl (congrArg Prod.snd h).symm
    · split at h
      · split at h
        · exact Or.inl (congrArg Prod.snd h).symm
        · split at h
          · exact Or.inl (congrArg Prod.snd h).symm
          · rename_i merged heq
            cases merged <;>
              · simp only [relocate_lamports] at h
                split at h
                · exact absurd (congrArg Prod.fst h) (by simp)
                · rename_i heq2
                  split at heq2
                  · split at heq2
                    · simp at heq2
                    · rename_i hov
                      have h1 := congrArg Prod.fst heq2
                      have h2 := congrArg Prod.fst h
                      simp only [Except.error.injEq] at h1 h2
                      exact Or.inr ⟨Nat.not_lt.mp hov, (h1.trans h2).symm⟩
                  · rename_i hle
                    exact absurd (le_refl _) hle
      · exact Or.inl (congrArg Prod.snd h).symm

/-- Counterexample to C2 as stated: merging two Initialized records with the
destination balance at `u64::MAX` passes every check, deinitializes the
source record, and only then fails the relocation's checked addition — the
call returns `ArithmeticOverflow` with the source record already rewritten
to `Uninitialized` and its balance already deducted. -/
theorem claim_C2_counterexample :
    process_merge (fun _ _ => ⟨0, 0, 0⟩) 0 1 [2] sampleClock
        { destState := .Initialized sampleMeta, sourceState := .Initialized sampleMeta,
          destLamports := 2 ^ 64 - 1, sourceLamports := 1 } =
      (.error .ArithmeticOverflow,
        { destState := .Initialized sampleMeta, sourceState := .Uninitialized,
          destLamports := 2 ^ 64 - 1, sourceLamports := 0 }) ∧
    ({ destState := .Initialized sampleMeta, sourceState := .Uninitialized,
       destLamports := 2 ^ 64 - 1, sourceLamports := 0 } : MergeWorld) ≠
      { destState := .Initialized sampleMeta, sourceState := .Initialized sampleMeta,
        destLamports := 2 ^ 64 - 1, sourceLamports := 1 } := by
  constructor
  · decide
  · decide

/-- Witness for C2 (amended): a same-key merge fails with the state
untouched (the left disjunct). -/
theorem claim_C2_witness :
    ({ destState := .Initialized sampleMeta, sourceState := .Initialized sampleMeta,
       destLamports := 300, sourceLamports := 400 } : MergeWorld) =
      { destState := .Initialized sampleMeta, sourceState := .Initialized sampleMeta,
        destLamports := 300, sourceLamports := 400 } ∨
    (U64_MOD ≤ 300 + 400 ∧ ProgramError.InvalidArgument = .ArithmeticOverflow) :=
  claim_C2_no_partial_write (fun _ _ => ⟨0, 0, 0⟩) 5 5 [2] sampleClock
    { destState := .Initialized sampleMeta, sourceState := .Initialized sampleMeta,
      destLamports := 300, sourceLamports := 400 }
    .InvalidArgument
    { destState := .Initialized sampleMeta, sourceState := .Initialized sampleMeta,
      destLamports := 300, sourceLamports := 400 }
    (by decide)
